import Mathlib

/-!
Shallow embedding of `joystick_button_actions.py` (hayguen/pi_button_actions).

The program decodes fixed 8-byte joystick event records and, per event,
updates per-index button/axis state, classifies the event into at most one
action name, and launches the script `<scriptdir>/<action_fn>` in the
background when such a regular file exists.

The embedding mirrors the main loop body (source lines 100-149):
machine integers become `Nat`/`Int`, Python floats on the values actually
reachable here become `Rat` (every float reaching a comparison is of the
form k/32767 with 0 ≤ k ≤ 255, or one of the literals 0 and 0.8, on which
rational and IEEE-double comparison outcomes agree), the three Python
dicts become functions `Nat → Option _`, and the filesystem/process
boundary becomes an oracle `isFile : String → Bool` plus the list of
launch attempts.
-/

/-- Configuration default, source line 27: `max_duration = 1000` (ms). -/
def max_duration : Int := 1000

/-- Configuration default, source line 26: `axe_thresh_val = 0.8`. -/
def axe_thresh_val : Rat := 0.8

/-- One decoded event record, source line 103:
`time, value, type, number = struct.unpack('IhBB', evbuf)`. -/
structure RawEvent where
  time : Nat
  value : Int
  type : Nat
  number : Nat
deriving DecidableEq

/-- The mutable state of the main loop, source lines 94-96:
`button_press_time = {}`, `axes_prev_time = {}`, `axes_prev_value = {}`. -/
structure JState where
  button_press_time : Nat → Option Nat
  axes_prev_time : Nat → Option Nat
  axes_prev_value : Nat → Option Rat

/-- The state before the first event: all three dicts empty. -/
def initState : JState :=
  { button_press_time := fun _ => none
  , axes_prev_time := fun _ => none
  , axes_prev_value := fun _ => none }

/-- Duration as computed on source lines 117 and 128:
`duration = time - <stored time>`. Python subtracts unbounded integers,
so the embedding subtracts in `Int` (no reduction mod 2^32). -/
def duration (t2 t1 : Nat) : Int := (t2 : Int) - (t1 : Int)

/-- Normalized axis value, source line 126: `fvalue = axis / 32767.0`.
Note the source divides the axis INDEX `axis` (= `number`), not the
event's `value` field. -/
def fvalue (axis : Nat) : Rat := (axis : Rat) / 32767

/-- Button branch body, source lines 110-122 (`if type & 0x01:`).
Returns the new state and `action_fn`. The verbose trace prints are
omitted (diagnostics only). -/
def buttonBranch (s : JState) (e : RawEvent) : JState × String :=
  if e.value ≠ 0 then
    ({ s with button_press_time :=
         fun b => if b = e.number then some e.time else s.button_press_time b }, "")
  else
    match s.button_press_time e.number with
    | some pt =>
        if duration e.time pt < max_duration then
          (s, "on_button_" ++ toString e.number ++ "_pressed")
        else (s, "")
    | none => (s, "")

/-- Axis branch body, source lines 124-142 (`if type & 0x02:`).
`action_fn` is the value the variable holds on entry (possibly set by the
button branch of the same record); it is overwritten only when a
classification fires, exactly as in the source. The two dict writes on
lines 141-142 happen on every axis event, after classification. -/
def axisBranch (s : JState) (e : RawEvent) (action_fn : String) : JState × String :=
  let fv := fvalue e.number
  let act :=
    match s.axes_prev_time e.number, s.axes_prev_value e.number with
    | some pt, some pv =>
        if fv = 0 ∧ duration e.time pt < max_duration then
          if pv < -axe_thresh_val then "on_axis_" ++ toString e.number ++ "_negative"
          else if pv > axe_thresh_val then "on_axis_" ++ toString e.number ++ "_positive"
          else action_fn
        else action_fn
    | _, _ => action_fn
  ({ s with
      axes_prev_time := fun a => if a = e.number then some e.time else s.axes_prev_time a
    , axes_prev_value := fun a => if a = e.number then some fv else s.axes_prev_value a }, act)

/-- One iteration of the main loop for one decoded record, source lines
104-142: reset `action_fn` to `""`, skip init events (`if type & 0x80:
continue`, line 107), then run the two independent branch conditionals.
Returns the new state and the final `action_fn`. (For an init event the
source `continue` also skips dispatch, which coincides with dispatching
the empty `action_fn`.) -/
def processEvent (s : JState) (e : RawEvent) : JState × String :=
  if e.type &&& 0x80 ≠ 0 then (s, "")
  else
    let sa := if e.type &&& 0x01 ≠ 0 then buttonBranch s e else (s, "")
    if e.type &&& 0x02 ≠ 0 then axisBranch sa.1 e sa.2 else sa

/-- Dispatch, source lines 144-149: when `action_fn` is non-empty, build
`script_file = scriptdir + "/" + action_fn`; if a regular file exists
there (oracle `isFile`, modelling `Path(script_file).is_file()`), one
background launch of that path is attempted (`subprocess.Popen`), else
none. The result is the list of launch attempts for this event. -/
def dispatch (scriptdir : String) (isFile : String → Bool) (action_fn : String) :
    List String :=
  if 0 < action_fn.length then
    let script_file := scriptdir ++ "/" ++ action_fn
    if isFile script_file then [script_file] else []
  else []

/-- Run the loop over a list of decoded records, collecting the value of
`action_fn` after each iteration. -/
def runEvents (s : JState) : List RawEvent → JState × List String
  | [] => (s, [])
  | e :: rest =>
      let r := processEvent s e
      let rr := runEvents r.1 rest
      (rr.1, r.2 :: rr.2)

/-- All launch attempts over a run, in order. -/
def runLaunches (scriptdir : String) (isFile : String → Bool) (s : JState)
    (evs : List RawEvent) : List String :=
  ((runEvents s evs).2.map (dispatch scriptdir isFile)).flatten

/-- Decoding of one 8-byte record, source line 103:
`struct.unpack('IhBB', evbuf)` with little-endian layout — 4-byte unsigned
`time`, 2 bytes two's-complement signed `value`, 1-byte `type`, 1-byte
`number`. Input is the 8 bytes in stream order. -/
def decodeEvent (b0 b1 b2 b3 b4 b5 b6 b7 : Nat) : RawEvent :=
  let u := b4 + 256 * b5
  { time := b0 + 256 * b1 + 65536 * b2 + 16777216 * b3
  , value := if u < 32768 then (u : Int) else (u : Int) - 65536
  , type := b6
  , number := b7 }

/-- Re-encoding of a decoded record with the same `IhBB` layout
(`struct.pack` direction), as the 8 bytes in stream order. -/
def encodeEvent (e : RawEvent) : List Nat :=
  let u := (e.value % 65536).toNat
  [ e.time % 256, e.time / 256 % 256, e.time / 65536 % 256, e.time / 16777216 % 256
  , u % 256, u / 256 % 256, e.type % 256, e.number % 256 ]

/-- Invariant on reachable states: every stored previous normalized axis
value came from `fvalue` at a uint8 index, hence lies in [0, 255/32767]. -/
def AxOK (s : JState) : Prop :=
  ∀ a q, s.axes_prev_value a = some q → 0 ≤ q ∧ q ≤ 255 / 32767

/-- Shape of every `action_fn` the loop can actually produce: empty, or a
button action. -/
def buttonish (a : String) : Prop :=
  a = "" ∨ ∃ n : Nat, a = "on_button_" ++ toString n ++ "_pressed"

/-- Relation between two records that are identical except possibly in the
`value` field of an axis-kind record (kind bit 0x02 set) — the
hyperproperty relation of the claim as stated. -/
def sameExceptAxisValue (e1 e2 : RawEvent) : Prop :=
  e1.time = e2.time ∧ e1.type = e2.type ∧ e1.number = e2.number ∧
    (e1.value = e2.value ∨ e1.type &&& 0x02 ≠ 0)

/-- Relation between two records that are identical except possibly in the
`value` field of a pure axis record (kind bit 0x02 set, bit 0x01 clear). -/
def sameExceptPureAxisValue (e1 e2 : RawEvent) : Prop :=
  e1.time = e2.time ∧ e1.type = e2.type ∧ e1.number = e2.number ∧
    (e1.value = e2.value ∨ (e1.type &&& 0x02 ≠ 0 ∧ e1.type &&& 0x01 = 0))

theorem data_append (s t : String) : (s ++ t).data = s.data ++ t.data := by
  cases s; cases t; rfl

theorem onButton_ne_empty (mid tail : String) :
    ("on_button_" ++ mid ++ tail) ≠ "" := by
  intro h
  have h2 := congrArg String.data h
  rw [data_append, data_append] at h2
  have e1 : "on_button_".data = ['o', 'n', '_', 'b', 'u', 't', 't', 'o', 'n', '_'] := rfl
  rw [e1] at h2
  simp at h2

theorem onAxis_ne_empty (mid tail : String) :
    ("on_axis_" ++ mid ++ tail) ≠ "" := by
  intro h
  have h2 := congrArg String.data h
  rw [data_append, data_append] at h2
  have e1 : "on_axis_".data = ['o', 'n', '_', 'a', 'x', 'i', 's', '_'] := rfl
  rw [e1] at h2
  simp at h2

theorem onAxis_ne_onButton (a b c d : String) :
    ("on_axis_" ++ a ++ b) ≠ ("on_button_" ++ c ++ d) := by
  intro h
  have h2 := congrArg String.data h
  rw [data_append, data_append, data_append, data_append] at h2
  have e1 : "on_axis_".data = ['o', 'n', '_', 'a', 'x', 'i', 's', '_'] := rfl
  have e2 : "on_button_".data = ['o', 'n', '_', 'b', 'u', 't', 't', 'o', 'n', '_'] := rfl
  rw [e1, e2] at h2
  simp at h2

/-- Claim C3: every event whose kind byte has bit 0x80 set is skipped by
`continue` — the state is returned unchanged, the action is empty, and no
launch is attempted, regardless of all other fields. -/
theorem C3_init_events_are_noops (s : JState) (e : RawEvent)
    (h : e.type &&& 0x80 ≠ 0) :
    processEvent s e = (s, "") ∧
    ∀ (scriptdir : String) (isFile : String → Bool),
      dispatch scriptdir isFile (processEvent s e).2 = [] := by
  have hp : processEvent s e = (s, "") := by simp [processEvent, h]
  refine ⟨hp, fun scriptdir isFile => ?_⟩
  rw [hp]
  simp [dispatch]

/-- Witness for C3 at a concrete init event (kind 0x81, nonzero fields). -/
theorem C3_init_events_are_noops_witness :
    processEvent initState ⟨5, 7, 0x81, 2⟩ = (initState, "") ∧
    ∀ (scriptdir : String) (isFile : String → Bool),
      dispatch scriptdir isFile (processEvent initState ⟨5, 7, 0x81, 2⟩).2 = [] :=
  C3_init_events_are_noops initState ⟨5, 7, 0x81, 2⟩ (by decide)

/-- Claim C7: for a non-empty action name, dispatch attempts exactly one
launch of `<scriptdir>/<action>` when a regular file exists there and
zero launches when it does not (and is total — a missing script raises
nothing). -/
theorem C7_dispatch_gating (scriptdir : String) (isFile : String → Bool)
    (a : String) (h : 0 < a.length) :
    (isFile (scriptdir ++ "/" ++ a) = true →
      dispatch scriptdir isFile a = [scriptdir ++ "/" ++ a]) ∧
    (isFile (scriptdir ++ "/" ++ a) = false →
      dispatch scriptdir isFile a = []) := by
  constructor <;> intro hf <;> simp [dispatch, h, hf]

/-- Witness for C7: action `on_button_0_pressed`, a filesystem containing
exactly `<dir>/on_button_0_pressed`, and the empty filesystem. -/
theorem C7_dispatch_gating_witness :
    (dispatch "d" (fun p => p == "d/on_button_0_pressed") "on_button_0_pressed"
      = ["d/on_button_0_pressed"]) ∧
    (dispatch "d" (fun _ => false) "on_button_0_pressed" = []) :=
  ⟨(C7_dispatch_gating "d" (fun p => p == "d/on_button_0_pressed")
      "on_button_0_pressed" (by decide)).1 (by decide),
   (C7_dispatch_gating "d" (fun _ => false)
      "on_button_0_pressed" (by decide)).2 rfl⟩

/-- Claim C2: for a button-kind release event (`value = 0`) of a button
with a recorded press timestamp, `action_fn` is `on_button_<index>_pressed`
iff the computed duration is strictly below `max_duration` (default 1000),
and is empty otherwise. -/
theorem C2_button_debounce (s : JState) (e : RawEvent) (t1 : Nat)
    (h80 : e.type &&& 0x80 = 0) (hb : e.type &&& 0x01 ≠ 0)
    (hax : e.type &&& 0x02 = 0) (hv : e.value = 0)
    (hp : s.button_press_time e.number = some t1) :
    (processEvent s e).2 =
      (if duration e.time t1 < max_duration then
        "on_button_" ++ toString e.number ++ "_pressed" else "") ∧
    ((processEvent s e).2 = "on_button_" ++ toString e.number ++ "_pressed" ↔
      duration e.time t1 < max_duration) := by
  have hact : (processEvent s e).2 =
      (if duration e.time t1 < max_duration then
        "on_button_" ++ toString e.number ++ "_pressed" else "") := by
    have hb2 : e.type % 2 = 1 := by
      have := Nat.and_one_is_mod e.type
      omega
    simp only [processEvent, h80, hax, buttonBranch, hv]
    simp [hb2, hp, apply_ite]
    split <;> intro h3 <;> exact absurd h3 (by omega)
  refine ⟨hact, ?_⟩
  rw [hact]
  by_cases hd : duration e.time t1 < max_duration
  · simp [hd]
  · simp [hd]
    intro heq
    exact absurd heq.symm (onButton_ne_empty (toString e.number) "_pressed")

/-- Witness for C2: button 3 pressed at t=0, released at t=999 (action
emitted) — instantiating the theorem at the state the press produced. -/
theorem C2_button_debounce_witness :
    ((runEvents initState [⟨0, 1, 1, 3⟩]).1.button_press_time 3 = some 0) ∧
    ((processEvent (runEvents initState [⟨0, 1, 1, 3⟩]).1 ⟨999, 0, 1, 3⟩).2 =
      (if duration 999 0 < max_duration then
        "on_button_" ++ toString (3 : Nat) ++ "_pressed" else "") ∧
     ((processEvent (runEvents initState [⟨0, 1, 1, 3⟩]).1 ⟨999, 0, 1, 3⟩).2 =
        "on_button_" ++ toString (3 : Nat) ++ "_pressed" ↔
      duration 999 0 < max_duration)) :=
  ⟨rfl, C2_button_debounce (runEvents initState [⟨0, 1, 1, 3⟩]).1 ⟨999, 0, 1, 3⟩ 0
    (by decide) (by decide) (by decide) rfl rfl⟩

/-- Claim C5, counterexample: press of button 3 at t=0, release at t=500,
then a second release at t=600 with no intervening press — the loop emits
`on_button_3_pressed` TWICE, because the release does not clear
`button_press_time[3]`; the claimed "at most one action for two
consecutive releases" is false. -/
theorem C5_counterexample :
    (runEvents initState [⟨0, 1, 1, 3⟩, ⟨500, 0, 1, 3⟩, ⟨600, 0, 1, 3⟩]).2 =
      ["", "on_button_3_pressed", "on_button_3_pressed"] := by
  norm_num +decide [runEvents, processEvent, axisBranch, buttonBranch, fvalue,
    duration, max_duration, axe_thresh_val, initState]

/-- Claim C5, amended: a release never modifies `button_press_time` (the
press record is NOT cleared), and a release for a button with no recorded
press emits no action; hence a second release re-reads the same press
record and can emit a second action. -/
theorem C5_release_keeps_press_record (s : JState) (e : RawEvent)
    (h80 : e.type &&& 0x80 = 0) (hb : e.type &&& 0x01 ≠ 0) (hv : e.value = 0) :
    ((processEvent s e).1.button_press_time = s.button_press_time) ∧
    (e.type &&& 0x02 = 0 → s.button_press_time e.number = none →
      (processEvent s e).2 = "") := by
  have hbb : (buttonBranch s e).1 = s := by
    rcases hpt : s.button_press_time e.number with _ | pt
    · simp [buttonBranch, hv, hpt]
    · simp [buttonBranch, hv, hpt, apply_ite]
  have h80n : ¬ e.type &&& 0x80 ≠ 0 := by simp [h80]
  have haxb : ∀ (s0 : JState) (af : String),
      (axisBranch s0 e af).1.button_press_time = s0.button_press_time :=
    fun s0 af => rfl
  constructor
  · simp only [processEvent, if_neg h80n, if_pos hb]
    by_cases hx : e.type &&& 0x02 ≠ 0
    · rw [if_pos hx, haxb, hbb]
    · rw [if_neg hx, hbb]
  · intro hx2 hnone
    have hxn : ¬ e.type &&& 0x02 ≠ 0 := by simp [hx2]
    simp only [processEvent, if_neg h80n, if_pos hb, if_neg hxn]
    simp [buttonBranch, hv, hnone]

/-- Witness for C5 (amended): release of button 3 at t=600 in the state
reached after press(t=0) and release(t=500) — the press record survives —
and a release of the never-pressed button 9 emits no action. -/
theorem C5_release_keeps_press_record_witness :
    ((processEvent (runEvents initState [⟨0, 1, 1, 3⟩, ⟨500, 0, 1, 3⟩]).1
        ⟨600, 0, 1, 3⟩).1.button_press_time =
      (runEvents initState [⟨0, 1, 1, 3⟩, ⟨500, 0, 1, 3⟩]).1.button_press_time) ∧
    (processEvent initState ⟨600, 0, 1, 9⟩).2 = "" :=
  ⟨(C5_release_keeps_press_record
      (runEvents initState [⟨0, 1, 1, 3⟩, ⟨500, 0, 1, 3⟩]).1 ⟨600, 0, 1, 3⟩
      (by decide) (by decide) rfl).1,
   (C5_release_keeps_press_record initState ⟨600, 0, 1, 9⟩
      (by decide) (by decide) rfl).2 rfl rfl⟩

/-- Claim C4, counterexample: press of button 3 at device time t1=2000,
release at t2=0 (a wrapped clock reading). The code's duration is the
plain integer difference -2000 — not the modular uint32 difference
(t2 - t1) mod 2^32 = 4294965296 — and since -2000 < 1000 the code emits
`on_button_3_pressed` even though the modular duration is far beyond
`max_duration`. -/
theorem C4_counterexample :
    duration 0 2000 ≠ ((0 : Int) - 2000) % 2 ^ 32 ∧
    (runEvents initState [⟨2000, 1, 1, 3⟩, ⟨0, 0, 1, 3⟩]).2 =
      ["", "on_button_3_pressed"] ∧
    ¬ ((0 : Int) - 2000) % 2 ^ 32 < max_duration := by
  refine ⟨by norm_num [duration], ?_, by norm_num [max_duration]⟩
  norm_num +decide [runEvents, processEvent, axisBranch, buttonBranch, fvalue,
    duration, max_duration, axe_thresh_val, initState]

/-- Claim C4, amended: the duration used for classification is the plain
integer difference t2 - t1. For uint32 timestamps it agrees with the
modular uint32 difference exactly when t1 ≤ t2 (no wraparound between the
two readings); when the clock wraps (t2 < t1) it is negative — hence
always below `max_duration` — and differs from the modular difference. -/
theorem C4_duration_plain_subtraction (t1 t2 : Nat)
    (h1 : t1 < 2 ^ 32) (h2 : t2 < 2 ^ 32) :
    (t1 ≤ t2 → duration t2 t1 = ((t2 : Int) - (t1 : Int)) % 2 ^ 32) ∧
    (t2 < t1 → duration t2 t1 < max_duration ∧
      duration t2 t1 ≠ ((t2 : Int) - (t1 : Int)) % 2 ^ 32) := by
  have hpn : (2 : Nat) ^ 32 = 4294967296 := by norm_num
  have hpi : (2 : Int) ^ 32 = 4294967296 := by norm_num
  rw [hpn] at h1 h2
  rw [hpi]
  unfold duration max_duration
  refine ⟨fun h => ?_, fun h => ⟨?_, ?_⟩⟩ <;> omega

/-- Witness for C4 (amended), at t1=2000, t2=0 (wrapped) — both below
2^32; the wrap conjunct applies since 0 < 2000. -/
theorem C4_duration_plain_subtraction_witness :
    duration 0 2000 < max_duration ∧
    duration 0 2000 ≠ ((0 : Int) - (2000 : Int)) % 2 ^ 32 :=
  (C4_duration_plain_subtraction 2000 0 (by norm_num) (by norm_num)).2
    (by norm_num)

/-- Claim C1 (code bug): the source normalizes the axis INDEX, not the
event value (`fvalue = axis / 32767.0`, line 126, where `axis = number`).
On the claimed witness sequence — axis 1 deflected to -30000 at t=0, back
to 0 at t=500 — `fvalue` is 1/32767 ≠ 0 at both events, the snap-back
test `fvalue == 0` never fires, and no action is emitted, contradicting
the claimed `on_axis_1_negative`. -/
theorem C1_axis_uses_index_not_value :
    fvalue 1 ≠ 0 ∧
    (runEvents initState [⟨0, -30000, 2, 1⟩, ⟨500, 0, 2, 1⟩]).2 = ["", ""] := by
  refine ⟨by norm_num [fvalue], ?_⟩
  norm_num +decide [runEvents, processEvent, axisBranch, buttonBranch, fvalue,
    duration, max_duration, axe_thresh_val, initState]

/-- Claim C8: decoding any well-formed 8-byte record with the `IhBB`
layout and re-encoding the four fields yields the original bytes. -/
theorem C8_decode_roundtrip (b0 b1 b2 b3 b4 b5 b6 b7 : Nat)
    (h0 : b0 < 256) (h1 : b1 < 256) (h2 : b2 < 256) (h3 : b3 < 256)
    (h4 : b4 < 256) (h5 : b5 < 256) (h6 : b6 < 256) (h7 : b7 < 256) :
    encodeEvent (decodeEvent b0 b1 b2 b3 b4 b5 b6 b7) =
      [b0, b1, b2, b3, b4, b5, b6, b7] := by
  simp only [decodeEvent, encodeEvent]
  by_cases hu : b4 + 256 * b5 < 32768 <;> simp [hu, List.cons.injEq] <;> omega

/-- Witness for C8 on the record (t=10000, value=-30000, kind=2, index=1):
bytes 10 27 00 00 D0 8A 02 01. -/
theorem C8_decode_roundtrip_witness :
    encodeEvent (decodeEvent 16 39 0 0 208 138 2 1) =
      [16, 39, 0, 0, 208, 138, 2, 1] :=
  C8_decode_roundtrip 16 39 0 0 208 138 2 1 (by decide) (by decide) (by decide)
    (by decide) (by decide) (by decide) (by decide) (by decide)

theorem buttonBranch_preserves_axes (s : JState) (e : RawEvent) :
    (buttonBranch s e).1.axes_prev_time = s.axes_prev_time ∧
    (buttonBranch s e).1.axes_prev_value = s.axes_prev_value := by
  by_cases hv : e.value ≠ 0
  · simp [buttonBranch, hv]
  · rcases hpt : s.button_press_time e.number with _ | pt
    · simp [buttonBranch, hv, hpt]
    · simp [buttonBranch, hv, hpt, apply_ite]

/-- Claim C6: (a) a release for a never-pressed button yields no action;
(b) an axis event with no prior recorded state yields no action; (c) on
every axis event — prior state or not — both axis dicts are overwritten
after classification with the event's timestamp and the computed `fvalue`. -/
theorem C6_first_event_baseline :
    (∀ (s : JState) (e : RawEvent), e.type &&& 0x80 = 0 → e.type &&& 0x02 ≠ 0 →
      ((processEvent s e).1.axes_prev_time e.number = some e.time ∧
       (processEvent s e).1.axes_prev_value e.number = some (fvalue e.number)) ∧
      (e.type &&& 0x01 = 0 →
        (s.axes_prev_time e.number = none ∨ s.axes_prev_value e.number = none) →
        (processEvent s e).2 = "")) ∧
    (∀ (s : JState) (e : RawEvent), e.type &&& 0x80 = 0 → e.type &&& 0x01 ≠ 0 →
      e.type &&& 0x02 = 0 → e.value = 0 → s.button_press_time e.number = none →
      (processEvent s e).2 = "") := by
  constructor
  · intro s e h80 hx
    have h80n : ¬ e.type &&& 0x80 ≠ 0 := by simp [h80]
    simp only [processEvent, if_neg h80n, if_pos hx]
    constructor
    · by_cases hb : e.type &&& 0x01 ≠ 0
      · rw [if_pos hb]
        constructor <;> simp [axisBranch]
      · rw [if_neg hb]
        constructor <;> simp [axisBranch]
    · intro hb1 hnone
      have hbn : ¬ e.type &&& 0x01 ≠ 0 := by simp [hb1]
      rw [if_neg hbn]
      rcases hnone with hnone | hnone
      · simp [axisBranch, hnone]
      · rcases hpt : s.axes_prev_time e.number with _ | pt <;>
          simp [axisBranch, hpt, hnone]
  · intro s e h80 hb hx2 hv hnone
    have h80n : ¬ e.type &&& 0x80 ≠ 0 := by simp [h80]
    have hxn : ¬ e.type &&& 0x02 ≠ 0 := by simp [hx2]
    simp only [processEvent, if_neg h80n, if_pos hb, if_neg hxn]
    simp [buttonBranch, hv, hnone]

/-- Witness for C6: the first axis-1 sample (value -30000, t=0) from the
empty state establishes the baseline but emits nothing, and a release of
the never-pressed button 7 emits nothing. -/
theorem C6_first_event_baseline_witness :
    ((processEvent initState ⟨0, -30000, 2, 1⟩).1.axes_prev_time 1 = some 0 ∧
     (processEvent initState ⟨0, -30000, 2, 1⟩).1.axes_prev_value 1 =
       some (fvalue 1)) ∧
    (processEvent initState ⟨0, -30000, 2, 1⟩).2 = "" ∧
    (processEvent initState ⟨5, 0, 1, 7⟩).2 = "" :=
  ⟨(C6_first_event_baseline.1 initState ⟨0, -30000, 2, 1⟩ (by decide)
      (by decide)).1,
   (C6_first_event_baseline.1 initState ⟨0, -30000, 2, 1⟩ (by decide)
      (by decide)).2 (by decide) (Or.inl rfl),
   C6_first_event_baseline.2 initState ⟨5, 0, 1, 7⟩ (by decide) (by decide)
     (by decide) rfl rfl⟩

theorem buttonBranch_buttonish (s : JState) (e : RawEvent) :
    buttonish (buttonBranch s e).2 := by
  by_cases hv : e.value ≠ 0
  · simp [buttonBranch, hv, buttonish]
  · rcases hpt : s.button_press_time e.number with _ | pt
    · simp [buttonBranch, hv, hpt, buttonish]
    · by_cases hd : duration e.time pt < max_duration
      · exact Or.inr ⟨e.number, by simp [buttonBranch, hv, hpt, hd]⟩
      · simp [buttonBranch, hv, hpt, hd, buttonish]

theorem axisBranch_step (s : JState) (e : RawEvent) (af : String)
    (hn : e.number < 256) (hs : AxOK s) (ha : buttonish af) :
    AxOK (axisBranch s e af).1 ∧ buttonish (axisBranch s e af).2 := by
  constructor
  · intro a q hq
    simp only [axisBranch] at hq
    by_cases hae : a = e.number
    · rw [if_pos hae, Option.some.injEq] at hq
      subst hq
      constructor
      · exact div_nonneg (Nat.cast_nonneg _) (by norm_num)
      · refine (div_le_div_iff_of_pos_right (by norm_num : (0 : Rat) < 32767)).mpr ?_
        exact_mod_cast Nat.le_of_lt_succ (by omega)
    · rw [if_neg hae] at hq
      exact hs a q hq
  · simp only [axisBranch]
    rcases hpt : s.axes_prev_time e.number with _ | pt
    · simpa [hpt] using ha
    · rcases hpv : s.axes_prev_value e.number with _ | pv
      · simpa [hpt, hpv] using ha
      · have hb := hs e.number pv hpv
        have hneg : ¬ pv < -axe_thresh_val := by
          have h08 : -axe_thresh_val < 0 := by norm_num [axe_thresh_val]
          intro hcon
          linarith [hb.1]
        have hpos : ¬ pv > axe_thresh_val := by
          have hlt : (255 : Rat) / 32767 < axe_thresh_val := by
            norm_num [axe_thresh_val]
          intro hcon
          linarith [hb.2]
        simpa [hpt, hpv, hneg, hpos] using ha

theorem processEvent_step (s : JState) (e : RawEvent) (hn : e.number < 256)
    (hs : AxOK s) :
    AxOK (processEvent s e).1 ∧ buttonish (processEvent s e).2 := by
  by_cases h80 : e.type &&& 0x80 ≠ 0
  · simp only [processEvent, if_pos h80]
    exact ⟨hs, Or.inl rfl⟩
  · have hsa : AxOK ((if e.type &&& 0x01 ≠ 0 then buttonBranch s e else (s, "")).1) ∧
        buttonish ((if e.type &&& 0x01 ≠ 0 then buttonBranch s e else (s, "")).2) := by
      by_cases hbt : e.type &&& 0x01 ≠ 0
      · rw [if_pos hbt]
        refine ⟨?_, buttonBranch_buttonish s e⟩
        intro a q hq
        rw [(buttonBranch_preserves_axes s e).2] at hq
        exact hs a q hq
      · rw [if_neg hbt]
        exact ⟨hs, Or.inl rfl⟩
    by_cases hx : e.type &&& 0x02 ≠ 0
    · have key := axisBranch_step
        (if e.type &&& 0x01 ≠ 0 then buttonBranch s e else (s, "")).1 e
        (if e.type &&& 0x01 ≠ 0 then buttonBranch s e else (s, "")).2
        hn hsa.1 hsa.2
      simp only [processEvent, if_neg h80, if_pos hx]
      exact key
    · simp only [processEvent, if_neg h80, if_neg hx]
      exact hsa

theorem runEvents_inv (evs : List RawEvent) :
    ∀ s : JState, (∀ e ∈ evs, e.number < 256) → AxOK s →
      AxOK (runEvents s evs).1 ∧ ∀ a ∈ (runEvents s evs).2, buttonish a := by
  induction evs with
  | nil =>
      intro s _ hs
      exact ⟨hs, by simp [runEvents]⟩
  | cons e rest ih =>
      intro s hn hs
      have h1 := processEvent_step s e (hn e (by simp)) hs
      have h2 := ih (processEvent s e).1 (fun x hx => hn x (by simp [hx])) h1.1
      constructor
      · simpa [runEvents] using h2.1
      · intro a ha
        simp only [runEvents, List.mem_cons] at ha
        rcases ha with ha | ha
        · rw [ha]
          exact h1.2
        · exact h2.2 a ha

/-- Claim C9: starting from the empty state, for any stream of records
with uint8 indices, no `on_axis_<n>_negative` or `on_axis_<n>_positive`
action is ever produced — every stored previous value is `fvalue` of a
uint8 index, bounded in [0, 255/32767], which never crosses either 0.8
threshold. -/
theorem C9_no_axis_actions (evs : List RawEvent)
    (hn : ∀ e ∈ evs, e.number < 256) (n : Nat) :
    ("on_axis_" ++ toString n ++ "_negative") ∉ (runEvents initState evs).2 ∧
    ("on_axis_" ++ toString n ++ "_positive") ∉ (runEvents initState evs).2 := by
  have hinit : AxOK initState := by
    intro a q hq
    simp [initState] at hq
  have hrun := (runEvents_inv evs initState hn hinit).2
  refine ⟨fun hmem => ?_, fun hmem => ?_⟩
  · have hb : ("on_axis_" ++ toString n ++ "_negative") = "" ∨
        ∃ m : Nat, ("on_axis_" ++ toString n ++ "_negative") =
          "on_button_" ++ toString m ++ "_pressed" := hrun _ hmem
    rcases hb with h | ⟨m, h⟩
    · exact onAxis_ne_empty (toString n) "_negative" h
    · exact onAxis_ne_onButton (toString n) "_negative" (toString m) "_pressed" h
  · have hb : ("on_axis_" ++ toString n ++ "_positive") = "" ∨
        ∃ m : Nat, ("on_axis_" ++ toString n ++ "_positive") =
          "on_button_" ++ toString m ++ "_pressed" := hrun _ hmem
    rcases hb with h | ⟨m, h⟩
    · exact onAxis_ne_empty (toString n) "_positive" h
    · exact onAxis_ne_onButton (toString n) "_positive" (toString m) "_pressed" h

/-- Witness for C9 on the strongest-looking snap-back stream (axis 1 to
-30000 then back to 0 within 500 ms): still no axis action. -/
theorem C9_no_axis_actions_witness :
    ("on_axis_" ++ toString (1 : Nat) ++ "_negative") ∉
      (runEvents initState [⟨0, -30000, 2, 1⟩, ⟨500, 0, 2, 1⟩]).2 ∧
    ("on_axis_" ++ toString (1 : Nat) ++ "_positive") ∉
      (runEvents initState [⟨0, -30000, 2, 1⟩, ⟨500, 0, 2, 1⟩]).2 :=
  C9_no_axis_actions [⟨0, -30000, 2, 1⟩, ⟨500, 0, 2, 1⟩] (by decide) 1

theorem processEvent_value_irrel (s : JState) (e : RawEvent) (v : Int)
    (hb : e.type &&& 0x01 = 0) :
    processEvent s { e with value := v } = processEvent s e := by
  obtain ⟨t, w, k, m⟩ := e
  have hm2 : ¬ k % 2 = 1 := by
    have hand := Nat.and_one_is_mod k
    have hk0 : k &&& 1 = 0 := by simpa using hb
    omega
  by_cases h80 : k &&& 0x80 ≠ 0
  · simp [processEvent, h80]
  · by_cases hx : k &&& 0x02 ≠ 0
    · simp [processEvent, h80, hx, hm2, axisBranch]
    · simp [processEvent, h80, hx, hm2]

theorem runEvents_congr_pureAxis {evs1 evs2 : List RawEvent}
    (h : List.Forall₂ sameExceptPureAxisValue evs1 evs2) :
    ∀ s, runEvents s evs1 = runEvents s evs2 := by
  induction h with
  | nil => intro _; rfl
  | cons he hrest ih =>
      intro s
      rename_i e1 e2 l1 l2
      have hpe : processEvent s e1 = processEvent s e2 := by
        obtain ⟨ht, hk, hm, hv⟩ := he
        rcases hv with hv | ⟨hax, hbt⟩
        · have heq : e1 = e2 := by
            cases e1; cases e2; simp_all
          rw [heq]
        · have h1 : e1 = { e2 with value := e1.value } := by
            cases e1; cases e2; simp_all
          rw [h1]
          exact processEvent_value_irrel s e2 e1.value (hk ▸ hbt)
      simp only [runEvents]
      rw [hpe, ih]

/-- Claim C10, counterexample: the two streams below are identical except
in the `value` field of their second records, which are axis-kind (kind
0x03 has bit 0x02 set) — yet the emitted actions differ, because kind
0x03 records also enter the button branch, which does read `value`. -/
theorem C10_counterexample :
    List.Forall₂ sameExceptAxisValue
      [⟨0, 1, 3, 3⟩, ⟨500, 0, 3, 3⟩] [⟨0, 1, 3, 3⟩, ⟨500, 1, 3, 3⟩] ∧
    (runEvents initState [⟨0, 1, 3, 3⟩, ⟨500, 0, 3, 3⟩]).2 ≠
      (runEvents initState [⟨0, 1, 3, 3⟩, ⟨500, 1, 3, 3⟩]).2 := by
  constructor
  · exact List.Forall₂.cons ⟨rfl, rfl, rfl, Or.inl rfl⟩
      (List.Forall₂.cons ⟨rfl, rfl, rfl, Or.inr (by decide)⟩ List.Forall₂.nil)
  · norm_num +decide [runEvents, processEvent, axisBranch, buttonBranch, fvalue,
      duration, max_duration, axe_thresh_val, initState]

/-- Claim C10, amended: restricted to records that are axis-kind and NOT
button-kind (bit 0x02 set, bit 0x01 clear), the `value` field is dead:
two runs over streams identical except in those values produce the same
final state, the same action list, and the same launch attempts. -/
theorem C10_pure_axis_value_independent (scriptdir : String)
    (isFile : String → Bool) (evs1 evs2 : List RawEvent)
    (h : List.Forall₂ sameExceptPureAxisValue evs1 evs2) :
    runEvents initState evs1 = runEvents initState evs2 ∧
    runLaunches scriptdir isFile initState evs1 =
      runLaunches scriptdir isFile initState evs2 := by
  have hr := runEvents_congr_pureAxis h initState
  refine ⟨hr, ?_⟩
  unfold runLaunches
  rw [hr]

/-- Witness for C10 (amended): one pure axis record whose value differs
-30000 vs 100 — identical run results. -/
theorem C10_pure_axis_value_independent_witness :
    List.Forall₂ sameExceptPureAxisValue [⟨0, -30000, 2, 1⟩] [⟨0, 100, 2, 1⟩] ∧
    (runEvents initState [⟨0, -30000, 2, 1⟩] =
       runEvents initState [⟨0, 100, 2, 1⟩] ∧
     runLaunches "d" (fun _ => true) initState [⟨0, -30000, 2, 1⟩] =
       runLaunches "d" (fun _ => true) initState [⟨0, 100, 2, 1⟩]) := by
  have hf : List.Forall₂ sameExceptPureAxisValue
      [⟨0, -30000, 2, 1⟩] [⟨0, 100, 2, 1⟩] :=
    List.Forall₂.cons ⟨rfl, rfl, rfl, Or.inr (by decide)⟩ List.Forall₂.nil
  exact ⟨hf, C10_pure_axis_value_independent "d" (fun _ => true) _ _ hf⟩
